import Mathlib

/-!
Verification of the task/account contracts of the to-do web application.

Shallow embedding of the request handlers of the to-do web application
(`src/flask_app.py`, `src/routes/tasks.py`, `src/routes/api.py`,
`src/routes/authentication.py`, `src/routes/home.py`, `src/models/task.py`).

Modelling conventions:
* The relational store is a list of rows plus an autoincrement counter
  (`TaskStore`, `UserStore`); `db.session.add` + `commit` appends a row with
  the next id, `db.session.delete` + `commit` removes the row.
* The underlying database engine is assumed reliable (the generic
  `except Exception` fallbacks for database faults are not exercised); the
  remote S3 object store, whose calls genuinely fail in the error
  handling, is modelled by an explicit outcome oracle where the code
  branches on its failures.
* Python string truthiness (`if name and due_date:`) is `truthy` below:
  `None` and the empty string are falsy.
* Flash messages are recorded as `(message, category)` pairs; every
  form-driven handler additionally redirects, which carries no state and is
  left implicit.
-/

namespace ToDoApp

/-- A row of the `task` table (`src/models/task.py`): integer autoincrement
primary key, non-null `name` and `due_date` text, `complete` boolean,
nullable `file_name` text. -/
structure Task where
  id : Nat
  name : String
  due_date : String
  complete : Bool
  file_name : Option String := none
deriving DecidableEq, Repr

/-- The task table: rows in storage order plus the next autoincrement id. -/
structure TaskStore where
  tasks : List Task
  nextId : Nat
deriving DecidableEq, Repr

/-- A flash message with its category (`flash(message, category)`). -/
structure Flash where
  message : String
  category : String
deriving DecidableEq, Repr

/-- Python truthiness of an optional string: `None` and `""` are falsy.
`request.form.get` yields `None` for a missing field. -/
def truthy : Option String → Bool
  | none => false
  | some s => !(s == "")

/-- `db.session.get(Task, task_id)` / `Task.query.get(task_id)`: the row
with the given primary key, if any. -/
def getTask (st : TaskStore) (task_id : Nat) : Option Task :=
  st.tasks.find? (fun t => t.id == task_id)

/-- `add_task` (`src/routes/tasks.py` lines 41-52, identical in
`src/flask_app.py` lines 188-199): reads `task` and `due_date` from the
form; if both are truthy, inserts `Task(name=name, due_date=due_date,
complete=False)` and flashes success; otherwise falls through to the
redirect with no flash at all. -/
def add_task (form_task form_due : Option String) (st : TaskStore) :
    TaskStore × List Flash :=
  if truthy form_task && truthy form_due then
    (⟨st.tasks ++ [⟨st.nextId, form_task.getD "", form_due.getD "", false, none⟩],
      st.nextId + 1⟩,
     [⟨"Task added successfully", "success"⟩])
  else
    (st, [])

/-- The row update performed by `complete_task`: flip `complete` on the row
with the given id (`task.complete = not task.complete`). -/
def toggleTask (task_id : Nat) (t : Task) : Task :=
  if t.id == task_id then { t with complete := !t.complete } else t

/-- `complete_task` (`src/routes/tasks.py` lines 111-125, identical in
`src/flask_app.py` lines 238-254): fetches the row by id; flashes
"Task not found" if absent, otherwise toggles `complete` and commits. -/
def complete_task (task_id : Nat) (st : TaskStore) : TaskStore × List Flash :=
  match getTask st task_id with
  | none => (st, [⟨"Task not found", "error"⟩])
  | some _ =>
    (⟨st.tasks.map (toggleTask task_id), st.nextId⟩,
     [⟨"Task completion status updated", "success"⟩])

/-- Python `str.lower()`: lower-case every character (character-list
formulation of `String.toLower`, kept kernel-computable). -/
def pyLower (s : String) : String :=
  ⟨s.data.map Char.toLower⟩

/-- `home` (`src/routes/home.py` lines 26-39, identical in
`src/flask_app.py` lines 110-121): lists all rows; when the `incomplete`
query argument (default "false") lower-cases to "true", keeps only rows
with `complete` false. Returns the task list handed to the template. -/
def home (incomplete_arg : Option String) (st : TaskStore) : List Task :=
  let show_incomplete := pyLower (incomplete_arg.getD "false") == "true"
  if show_incomplete then st.tasks.filter (fun t => !t.complete) else st.tasks

/-! ## Bulk add (`src/routes/api.py` lines 76-128, identical in
`src/flask_app.py` lines 391-443) -/

/-- One record of the JSON payload of `bulk_add_tasks`; `task.get("name")`
and `task.get("due_date")` yield `None` when absent, `task.get("complete",
False)` defaults to false. Values are modelled as strings (the payloads the
handlers and tests exchange). -/
structure TaskRecord where
  name : Option String := none
  due_date : Option String := none
  complete : Option Bool := none
deriving DecidableEq, Repr

/-- The Python interpolation `{x if x else "missing"}` (the source uses
single quotes): a falsy value
(absent field or empty string) renders as the literal `missing`. -/
def pyStrOrMissing : Option String → String
  | none => "missing"
  | some s => if s == "" then "missing" else s

/-- The 400 error body produced for the first invalid record:
`Each task must have a name and due_date.  The name was {name if name else
missing} and due_date was {due_date if due_date else missing}.` where the
fallback is the quoted literal `missing`. -/
def bulkErrorMessage (name due_date : Option String) : String :=
  "Each task must have a name and due_date.  The name was " ++
    pyStrOrMissing name ++ " and due_date was " ++ pyStrOrMissing due_date ++ "."

/-- A record passes the `if name and due_date:` check. -/
def validRecord (r : TaskRecord) : Bool :=
  truthy r.name && truthy r.due_date

/-- The validation loop of `bulk_add_tasks`: walks the payload building
`tasks_to_insert` (name, due date, complete for each record) and returns
the 400 error body at the first record failing `if name and due_date:`.
No database write happens during this loop. -/
def collectTasks : List TaskRecord → Except String (List (String × String × Bool))
  | [] => .ok []
  | r :: rest =>
    if truthy r.name && truthy r.due_date then
      match collectTasks rest with
      | .ok l => .ok ((r.name.getD "", r.due_date.getD "", r.complete.getD false) :: l)
      | .error e => .error e
    else
      .error (bulkErrorMessage r.name r.due_date)

/-- `db.session.add_all(tasks_to_insert)` + `commit`: appends the collected
rows in list order, each receiving the next autoincrement id. -/
def insertAll : List (String × String × Bool) → TaskStore → TaskStore
  | [], st => st
  | (n, d, c) :: rest, st =>
    insertAll rest ⟨st.tasks ++ [⟨st.nextId, n, d, c, none⟩], st.nextId + 1⟩

/-- A JSON API response: 201 `{message, count}` or 400 `{error}`. -/
inductive ApiResponse where
  | created (message : String) (count : Nat)
  | badRequest (error : String)
deriving DecidableEq, Repr

/-- The HTTP status code attached to each `ApiResponse` shape. -/
def statusCode : ApiResponse → Nat
  | .created _ _ => 201
  | .badRequest _ => 400

/-- `bulk_add_tasks` on a JSON list payload: validate every record first
(returning 400 and touching no row on the first invalid one), then insert
all collected rows and respond 201 with the inserted count. The non-list
payload (400 "Invalid data format.") and the `except Exception` 500 path
are outside the claims and not modelled. -/
def bulk_add_tasks (data : List TaskRecord) (st : TaskStore) :
    TaskStore × ApiResponse :=
  match collectTasks data with
  | .error e => (st, .badRequest e)
  | .ok recs => (insertAll recs st, .created "Tasks added successfully" recs.length)

/-- The rows `bulk_add_tasks` appends for a payload, starting at the given
autoincrement id: one row per record, ids consecutive in input order. -/
def mkTasks : Nat → List TaskRecord → List Task
  | _, [] => []
  | startId, r :: rest =>
    ⟨startId, r.name.getD "", r.due_date.getD "", r.complete.getD false, none⟩ ::
      mkTasks (startId + 1) rest

/-! ## Registration (`src/routes/authentication.py` lines 15-27, identical
in `src/flask_app.py` lines 124-136; `User` model in `src/flask_app.py`
lines 58-62 with `email` declared `unique=True`) -/

/-- A row of the `user` table: id, unique email, password hash. -/
structure User where
  id : Nat
  email : String
  password : String
deriving DecidableEq, Repr

/-- The user table: rows plus the next autoincrement id. -/
structure UserStore where
  users : List User
  nextId : Nat
deriving DecidableEq, Repr

/-- What the client sees from the `register` POST handler: either the
handled response (redirect to login with flashes) or an exception that
escaped the handler (Flask turns it into a 500 / debugger stack trace). -/
inductive RegisterOutcome where
  | redirectLogin (flashes : List Flash)
  | unhandledError (msg : String)
deriving DecidableEq, Repr

/-- `register` on POST: hashes the submitted password, adds a `User` row
and commits, then flashes and redirects to login. The handler has no
duplicate-email check and no try/except: when a row with the same email
exists, the `unique=True` constraint makes the commit raise, the insert is
not persisted, and the exception escapes the handler. `hash` is the
external `generate_password_hash`. -/
def register (hash : String → String) (email password : String)
    (us : UserStore) : UserStore × RegisterOutcome :=
  if us.users.any (fun u => u.email == email) then
    (us, .unhandledError "IntegrityError: UNIQUE constraint failed: user.email")
  else
    (⟨us.users ++ [⟨us.nextId, email, hash password⟩], us.nextId + 1⟩,
     .redirectLogin [⟨"Registration successful! Please log in.", "success"⟩])

/-- The outcome is a handled response (a redirect), not an exception that
escaped the handler. -/
def handledResponse : RegisterOutcome → Bool
  | .redirectLogin _ => true
  | .unhandledError _ => false

/-! ## File upload and bulk delete against S3
(`src/routes/tasks.py` lines 146-342) -/

/-- The remote object store: the set of keys holding an object (contents
are irrelevant to the claims). -/
structure S3State where
  objects : List String
deriving DecidableEq, Repr

/-- The S3 key derived for the file of a task: the f-string
`task_{task_id}/{file_name}`. -/
def s3Key (task_id : Nat) (file_name : String) : String :=
  "task_" ++ toString task_id ++ "/" ++ file_name

/-- Outcome of one `s3_client.delete_object` attempt in the deletion
handlers: success, `NoCredentialsError`, `ClientError`, or any other
exception raised while performing the call. In `delete_all_tasks` (and
`delete_task`) the module-level name `s3_client` is never defined in
`src/routes/tasks.py`, so evaluating the call actually raises `NameError`,
which only the enclosing generic `except Exception` catches: `raiseOther`
is the branch real executions take for any file-bearing task. -/
inductive S3DelOutcome where
  | ok
  | noCredentials
  | clientError (msg : String)
  | raiseOther (msg : String)
deriving DecidableEq, Repr

/-- `db.session.delete(task)` + `commit`: remove the row with that id. -/
def removeTask (st : TaskStore) (task_id : Nat) : TaskStore :=
  ⟨st.tasks.filter (fun t => t.id != task_id), st.nextId⟩

/-- The loop of `delete_all_tasks` (`src/routes/tasks.py` lines 221-250)
over the snapshot of rows: for each task, if it has a file, attempt the
remote delete — on `NoCredentialsError` or `ClientError` flash, roll back
and return; on any other exception the outer `except Exception` flashes
"Error deleting all tasks" and returns. Crucially the row deletion of each
task is committed inside the loop, so the rollback on failure undoes nothing:
rows deleted in earlier iterations stay deleted. -/
def delete_all_go (s3del : String → S3DelOutcome) :
    List Task → TaskStore → TaskStore × List Flash
  | [], cur => (cur, [⟨"All tasks deleted successfully", "danger"⟩])
  | t :: rest, cur =>
    match t.file_name with
    | some fn =>
      match s3del (s3Key t.id fn) with
      | .ok => delete_all_go s3del rest (removeTask cur t.id)
      | .noCredentials => (cur, [⟨"Credentials not available", "error"⟩])
      | .clientError m => (cur, [⟨"Error deleting file from S3: " ++ m, "error"⟩])
      | .raiseOther _ => (cur, [⟨"Error deleting all tasks", "error"⟩])
    | none => delete_all_go s3del rest (removeTask cur t.id)

/-- `delete_all_tasks`: query all rows, then run the per-task
delete-file/delete-row/commit loop. `s3del` gives the outcome of each
remote delete attempt by key. -/
def delete_all_tasks (s3del : String → S3DelOutcome) (st : TaskStore) :
    TaskStore × List Flash :=
  delete_all_go s3del st.tasks st

/-- `upload_file` (`src/routes/tasks.py` lines 293-342), S3 transport
succeeding (the `NoCredentialsError` / generic exception paths are not
taken): reject a missing file part or empty filename; otherwise delete any
object already at the derived key (flashing "File overwritten"), upload the
new object, and only then look the task up — updating its `file_name` on
success or flashing "Task not found" when the id is unknown. Returns the
task store, the S3 state and the flashes. -/
def upload_file (task_id : Nat) (file : Option String) (st : TaskStore)
    (s3 : S3State) : TaskStore × S3State × List Flash :=
  match file with
  | none => (st, s3, [⟨"No file part", "error"⟩])
  | some fname =>
    if fname == "" then (st, s3, [⟨"No selected file", "error"⟩])
    else
      let key := s3Key task_id fname
      let overwriteFlash : List Flash :=
        if s3.objects.contains key then [⟨"File overwritten", "danger"⟩] else []
      let s3' : S3State :=
        ⟨if s3.objects.contains key then s3.objects else s3.objects ++ [key]⟩
      match getTask st task_id with
      | some _ =>
        (⟨st.tasks.map
            (fun t => if t.id == task_id then { t with file_name := some fname } else t),
          st.nextId⟩,
         s3', overwriteFlash ++ [⟨"File uploaded successfully", "success"⟩])
      | none => (st, s3', overwriteFlash ++ [⟨"Task not found", "error"⟩])

/-! ## Theorems -/

/-- C8: a bulk-add payload of the single record `{"due_date":"2023-10-02"}`
yields status 400 with exactly the error body `Each task must have a name
and due_date.  The name was missing and due_date was 2023-10-02.`. -/
theorem c8_bulk_add_missing_name_exact_error :
    bulk_add_tasks [{ due_date := some "2023-10-02" }] ⟨[], 1⟩ =
      (⟨[], 1⟩, .badRequest
        "Each task must have a name and due_date.  The name was missing and due_date was 2023-10-02.")
    ∧ statusCode (bulk_add_tasks [{ due_date := some "2023-10-02" }] ⟨[], 1⟩).2 = 400 := by
  constructor <;> rfl

/-- C9: bulk-adding the empty list succeeds with status 201 and count 0 and
leaves the task store unchanged. -/
theorem c9_bulk_add_empty_list (st : TaskStore) :
    bulk_add_tasks [] st = (st, .created "Tasks added successfully" 0)
    ∧ statusCode (bulk_add_tasks [] st).2 = 201 := by
  constructor <;> rfl

/-- C10: validation treats present-but-empty strings exactly like absent
fields, in `bulk_add_tasks` and in `add_task`, and the bulk-add error
message renders such a field as `missing` (never as the empty string). -/
theorem c10_empty_string_as_missing (st : TaskStore) (rest : List TaskRecord)
    (v : Option String) (c : Option Bool) :
    bulk_add_tasks ({ name := some "", due_date := v, complete := c } :: rest) st
      = bulk_add_tasks ({ name := none, due_date := v, complete := c } :: rest) st
    ∧ bulk_add_tasks ({ name := v, due_date := some "", complete := c } :: rest) st
      = bulk_add_tasks ({ name := v, due_date := none, complete := c } :: rest) st
    ∧ add_task (some "") v st = add_task none v st
    ∧ add_task v (some "") st = add_task v none st
    ∧ bulkErrorMessage (some "") v = bulkErrorMessage none v
    ∧ bulkErrorMessage v (some "") = bulkErrorMessage v none
    ∧ pyStrOrMissing (some "") = "missing" := by
  refine ⟨?_, ?_, ?_, ?_, ?_, ?_, rfl⟩ <;>
    simp [bulk_add_tasks, collectTasks, truthy, bulkErrorMessage, pyStrOrMissing,
      add_task]

/-- C5, counterexample: `add_task` with an absent name and a present due
date inserts nothing but also produces no flash at all — in particular no
error-category flash reaches the user, refuting the claimed surfaced
`ValidationError`. -/
theorem c5_counterexample :
    add_task none (some "2023-10-02") ⟨[], 1⟩ = (⟨[], 1⟩, [])
    ∧ ¬ ∃ f ∈ (add_task none (some "2023-10-02") ⟨[], 1⟩).2,
        f.category = "error" := by
  exact ⟨rfl, by decide⟩

/-- C5, amended: when name or due date is absent or empty, `add_task`
inserts nothing and redirects silently (no flash of any category); when
both are truthy it appends exactly one task with `complete = false` and
flashes success. -/
theorem c5_amended (n d : Option String) (st : TaskStore) :
    ((truthy n && truthy d) = false → add_task n d st = (st, []))
    ∧ ((truthy n && truthy d) = true →
        add_task n d st =
          (⟨st.tasks ++ [⟨st.nextId, n.getD "", d.getD "", false, none⟩],
            st.nextId + 1⟩,
           [⟨"Task added successfully", "success"⟩])) := by
  constructor <;> intro h <;> simp [add_task, h]

/-- C5, witness for the amended theorem at concrete inputs. -/
theorem c5_amended_witness :
    ((truthy none && truthy (some "2023-10-02")) = false
      ∧ add_task none (some "2023-10-02") ⟨[], 1⟩ = (⟨[], 1⟩, []))
    ∧ ((truthy (some "A") && truthy (some "2023-01-01")) = true
      ∧ add_task (some "A") (some "2023-01-01") ⟨[], 1⟩ =
          (⟨[⟨1, "A", "2023-01-01", false, none⟩], 2⟩,
           [⟨"Task added successfully", "success"⟩])) :=
  ⟨⟨by decide, (c5_amended none (some "2023-10-02") ⟨[], 1⟩).1 (by decide)⟩,
   ⟨by decide, (c5_amended (some "A") (some "2023-01-01") ⟨[], 1⟩).2 (by decide)⟩⟩

/-- C3, counterexample: registering an email already present yields an
exception that escapes the handler (no redirect, no structured error),
refuting the claimed handled `DuplicateEmail` outcome; the account table is
unchanged. -/
theorem c3_counterexample :
    handledResponse
        (register (fun s => s) "x@y.com" "pw" ⟨[⟨1, "x@y.com", "h"⟩], 2⟩).2 = false
    ∧ (register (fun s => s) "x@y.com" "pw" ⟨[⟨1, "x@y.com", "h"⟩], 2⟩).1 =
        ⟨[⟨1, "x@y.com", "h"⟩], 2⟩ := by
  exact ⟨rfl, rfl⟩

/-- C3, amended: `register` with an email already present persists no
second account (the unique constraint rejects the insert), but the handler
has no duplicate check and no exception handling, so the uniqueness
violation escapes as an unhandled fault instead of a `DuplicateEmail`
error or structured response. -/
theorem c3_amended (hash : String → String) (email pw : String)
    (us : UserStore) (h : us.users.any (fun u => u.email == email) = true) :
    register hash email pw us =
      (us, .unhandledError "IntegrityError: UNIQUE constraint failed: user.email")
    ∧ handledResponse (register hash email pw us).2 = false := by
  refine ⟨by simp [register, h], by simp [register, h, handledResponse]⟩

/-- C3, witness for the amended theorem at a concrete duplicate email. -/
theorem c3_amended_witness :
    ((⟨[⟨1, "x@y.com", "h"⟩], 2⟩ : UserStore).users.any
        (fun u => u.email == "x@y.com") = true)
    ∧ register (fun s => s) "x@y.com" "pw" ⟨[⟨1, "x@y.com", "h"⟩], 2⟩ =
        (⟨[⟨1, "x@y.com", "h"⟩], 2⟩,
         .unhandledError "IntegrityError: UNIQUE constraint failed: user.email") :=
  ⟨by decide,
   (c3_amended (fun s => s) "x@y.com" "pw" ⟨[⟨1, "x@y.com", "h"⟩], 2⟩
      (by decide)).1⟩

/-- C4, counterexample: uploading `a.txt` for the unknown task id 1 flashes
"Task not found" and changes no task, but the object is uploaded to remote
storage before the existence check, refuting the claim that no object is
uploaded. -/
theorem c4_counterexample :
    (upload_file 1 (some "a.txt") ⟨[], 1⟩ ⟨[]⟩).2.1 = ⟨["task_1/a.txt"]⟩
    ∧ (upload_file 1 (some "a.txt") ⟨[], 1⟩ ⟨[]⟩).2.1 ≠ ⟨[]⟩
    ∧ (upload_file 1 (some "a.txt") ⟨[], 1⟩ ⟨[]⟩).1 = ⟨[], 1⟩
    ∧ Flash.mk "Task not found" "error" ∈ (upload_file 1 (some "a.txt") ⟨[], 1⟩ ⟨[]⟩).2.2 := by
  refine ⟨rfl, by decide, rfl, by decide⟩

/-- C4, amended: on an unknown task id with a non-empty filename,
`upload_file` reports the task as not found and leaves every task
unchanged, but the object has already been uploaded: the derived key is
present in remote storage afterwards. -/
theorem c4_amended (task_id : Nat) (fname : String) (st : TaskStore)
    (s3 : S3State) (hf : (fname == "") = false) (h : getTask st task_id = none) :
    (upload_file task_id (some fname) st s3).1 = st
    ∧ s3Key task_id fname ∈ (upload_file task_id (some fname) st s3).2.1.objects
    ∧ Flash.mk "Task not found" "error" ∈ (upload_file task_id (some fname) st s3).2.2 := by
  refine ⟨?_, ?_, ?_⟩ <;>
    · simp only [upload_file, hf, h]
      cases hc : s3.objects.contains (s3Key task_id fname) <;>
        simp_all [upload_file]

/-- C4, witness for the amended theorem at a concrete unknown id. -/
theorem c4_amended_witness :
    (("a.txt" == "") = false) ∧ (getTask ⟨[], 1⟩ 1 = none)
    ∧ (upload_file 1 (some "a.txt") ⟨[], 1⟩ ⟨[]⟩).1 = ⟨[], 1⟩
    ∧ s3Key 1 "a.txt" ∈ (upload_file 1 (some "a.txt") ⟨[], 1⟩ ⟨[]⟩).2.1.objects
    ∧ Flash.mk "Task not found" "error"
        ∈ (upload_file 1 (some "a.txt") ⟨[], 1⟩ ⟨[]⟩).2.2 :=
  ⟨by decide, by decide,
   (c4_amended 1 "a.txt" ⟨[], 1⟩ ⟨[]⟩ (by decide) (by decide)).1,
   (c4_amended 1 "a.txt" ⟨[], 1⟩ ⟨[]⟩ (by decide) (by decide)).2.1,
   (c4_amended 1 "a.txt" ⟨[], 1⟩ ⟨[]⟩ (by decide) (by decide)).2.2⟩

/-- When every record passes validation, the collection loop returns all
records (name, due date, complete) in input order. -/
theorem collectTasks_ok (data : List TaskRecord)
    (h : ∀ r ∈ data, validRecord r = true) :
    collectTasks data =
      .ok (data.map (fun r =>
        (r.name.getD "", r.due_date.getD "", r.complete.getD false))) := by
  induction data with
  | nil => rfl
  | cons r rest ih =>
    have hr : (truthy r.name && truthy r.due_date) = true := by
      have := h r (by simp)
      simpa [validRecord] using this
    have hrest := ih (fun x hx => h x (by simp [hx]))
    simp [collectTasks, hr, hrest]

/-- `insertAll` appends one row per collected record, with consecutive
autoincrement ids in input order. -/
theorem insertAll_map (data : List TaskRecord) :
    ∀ st : TaskStore,
      insertAll (data.map (fun r =>
          (r.name.getD "", r.due_date.getD "", r.complete.getD false))) st
        = ⟨st.tasks ++ mkTasks st.nextId data, st.nextId + data.length⟩ := by
  induction data with
  | nil => intro st; simp [insertAll, mkTasks]
  | cons r rest ih =>
    intro st
    simp only [List.map_cons, insertAll, ih, mkTasks, List.length_cons]
    refine congrArg₂ TaskStore.mk ?_ (by omega)
    simp

/-- When every record before `bad` is valid and `bad` is not, the
collection loop stops at `bad` with its error message. -/
theorem collectTasks_err (pre : List TaskRecord) (bad : TaskRecord)
    (rest : List TaskRecord) (hpre : ∀ r ∈ pre, validRecord r = true)
    (hbad : validRecord bad = false) :
    collectTasks (pre ++ bad :: rest) =
      .error (bulkErrorMessage bad.name bad.due_date) := by
  induction pre with
  | nil =>
    have hb : (truthy bad.name && truthy bad.due_date) = false := by
      simpa [validRecord] using hbad
    simp [collectTasks, hb]
  | cons p ps ih =>
    have hp : (truthy p.name && truthy p.due_date) = true := by
      have := hpre p (by simp)
      simpa [validRecord] using this
    have hps := ih (fun x hx => hpre x (by simp [hx]))
    simp [collectTasks, hp, hps]

/-- C2: `bulk_add_tasks` is all-or-nothing. Given N valid records it
appends exactly N rows with consecutive ids in input order and responds
201 with count N; given a payload whose first invalid record is `bad`, it
responds 400 with the message naming the missing field of `bad` and
persists nothing. -/
theorem c2_bulk_add_atomic (st : TaskStore) (data : List TaskRecord) :
    ((∀ r ∈ data, validRecord r = true) →
      bulk_add_tasks data st =
        (⟨st.tasks ++ mkTasks st.nextId data, st.nextId + data.length⟩,
         .created "Tasks added successfully" data.length))
    ∧ (∀ pre bad rest, data = pre ++ bad :: rest →
        (∀ r ∈ pre, validRecord r = true) → validRecord bad = false →
        bulk_add_tasks data st =
          (st, .badRequest (bulkErrorMessage bad.name bad.due_date))) := by
  constructor
  · intro h
    simp [bulk_add_tasks, collectTasks_ok data h, insertAll_map]
  · rintro pre bad rest rfl hpre hbad
    simp [bulk_add_tasks, collectTasks_err pre bad rest hpre hbad]

/-- C2, witness: two valid records are both inserted with ids 1, 2 and
count 2; a payload whose second record lacks a name persists nothing and
yields the naming error. -/
theorem c2_bulk_add_atomic_witness :
    ((∀ r ∈ [(⟨some "A", some "2023-01-01", none⟩ : TaskRecord),
              ⟨some "B", some "2023-01-02", none⟩], validRecord r = true)
      ∧ bulk_add_tasks
          [⟨some "A", some "2023-01-01", none⟩, ⟨some "B", some "2023-01-02", none⟩]
          ⟨[], 1⟩ =
        (⟨[] ++ mkTasks 1
            [⟨some "A", some "2023-01-01", none⟩, ⟨some "B", some "2023-01-02", none⟩],
          1 + 2⟩,
         .created "Tasks added successfully" 2))
    ∧ bulk_add_tasks
        [⟨some "A", some "2023-01-01", none⟩, ⟨none, some "2023-10-02", none⟩]
        ⟨[], 1⟩ =
      (⟨[], 1⟩, .badRequest (bulkErrorMessage none (some "2023-10-02"))) :=
  ⟨⟨by decide,
    (c2_bulk_add_atomic ⟨[], 1⟩
        [⟨some "A", some "2023-01-01", none⟩, ⟨some "B", some "2023-01-02", none⟩]).1
      (by decide)⟩,
   (c2_bulk_add_atomic ⟨[], 1⟩
        [⟨some "A", some "2023-01-01", none⟩, ⟨none, some "2023-10-02", none⟩]).2
      [⟨some "A", some "2023-01-01", none⟩] ⟨none, some "2023-10-02", none⟩ []
      rfl (by decide) (by decide)⟩

/-- `toggleTask` keeps the row id. -/
theorem toggleTask_id (task_id : Nat) (t : Task) :
    (toggleTask task_id t).id = t.id := by
  unfold toggleTask; split <;> rfl

/-- Toggling the same row twice restores it. -/
theorem toggleTask_toggleTask (task_id : Nat) (t : Task) :
    toggleTask task_id (toggleTask task_id t) = t := by
  cases t with
  | mk id name due c fn => by_cases h : (id == task_id) <;> simp [toggleTask, h]

/-- Row lookup commutes with the completion toggle over the table. -/
theorem find?_toggleTask_map (task_id : Nat) (l : List Task) :
    (l.map (toggleTask task_id)).find? (fun t => t.id == task_id)
      = (l.find? (fun t => t.id == task_id)).map (toggleTask task_id) := by
  induction l with
  | nil => rfl
  | cons t rest ih =>
    cases h : (t.id == task_id) with
    | true =>
      have h' : ((toggleTask task_id t).id == task_id) = true := by
        rw [toggleTask_id]; exact h
      rw [List.map_cons,
        List.find?_cons_of_pos (p := fun x : Task => x.id == task_id) _ h',
        List.find?_cons_of_pos (p := fun x : Task => x.id == task_id) _ h]
      rfl
    | false =>
      have h' : ¬ ((toggleTask task_id t).id == task_id) = true := by
        rw [toggleTask_id, h]; exact Bool.false_ne_true
      have h2 : ¬ ((t.id == task_id) = true) := by
        rw [h]; exact Bool.false_ne_true
      rw [List.map_cons,
        List.find?_cons_of_neg (p := fun x : Task => x.id == task_id) _ h',
        List.find?_cons_of_neg (p := fun x : Task => x.id == task_id) _ h2, ih]

/-- Applying the table-wide toggle twice is the identity. -/
theorem toggleTask_map_map (task_id : Nat) (l : List Task) :
    (l.map (toggleTask task_id)).map (toggleTask task_id) = l := by
  rw [List.map_map,
    show toggleTask task_id ∘ toggleTask task_id = id from
      funext (toggleTask_toggleTask task_id)]
  exact List.map_id l

/-- C6: `toggle_complete` is an involution — for a present id, applying
`complete_task` twice restores the whole store (the flag returns to its
original value and every other field and task is untouched); for an absent
id the store is unchanged and the "Task not found" error is flashed. -/
theorem c6_toggle_involution (st : TaskStore) (task_id : Nat) :
    ((getTask st task_id).isSome = true →
      (complete_task task_id (complete_task task_id st).1).1 = st)
    ∧ (getTask st task_id = none →
      complete_task task_id st = (st, [⟨"Task not found", "error"⟩])) := by
  constructor
  · intro h
    obtain ⟨t, ht⟩ := Option.isSome_iff_exists.mp h
    have ht' : List.find? (fun x => x.id == task_id) st.tasks = some t := ht
    have h2 : getTask ⟨st.tasks.map (toggleTask task_id), st.nextId⟩ task_id
        = some (toggleTask task_id t) := by
      show List.find? (fun x => x.id == task_id) (st.tasks.map (toggleTask task_id))
          = some (toggleTask task_id t)
      rw [find?_toggleTask_map, ht']
      rfl
    simp only [complete_task, ht, h2, toggleTask_map_map]
  · intro h
    simp [complete_task, h]

/-- C6, witness: double toggle on id 1 restores the one-task store; id 5 is
absent and flashes "Task not found". -/
theorem c6_toggle_involution_witness :
    ((getTask ⟨[⟨1, "A", "2023-01-01", false, none⟩], 2⟩ 1).isSome = true
      ∧ (complete_task 1
          (complete_task 1 ⟨[⟨1, "A", "2023-01-01", false, none⟩], 2⟩).1).1 =
        ⟨[⟨1, "A", "2023-01-01", false, none⟩], 2⟩)
    ∧ (getTask ⟨[⟨1, "A", "2023-01-01", false, none⟩], 2⟩ 5 = none
      ∧ complete_task 5 ⟨[⟨1, "A", "2023-01-01", false, none⟩], 2⟩ =
        (⟨[⟨1, "A", "2023-01-01", false, none⟩], 2⟩,
         [⟨"Task not found", "error"⟩])) :=
  ⟨⟨by decide,
    (c6_toggle_involution ⟨[⟨1, "A", "2023-01-01", false, none⟩], 2⟩ 1).1
      (by decide)⟩,
   ⟨by decide,
    (c6_toggle_involution ⟨[⟨1, "A", "2023-01-01", false, none⟩], 2⟩ 5).2
      (by decide)⟩⟩

/-- C7: the unfiltered listing is the table in storage (insertion) order;
the `incomplete=true` filter keeps exactly the rows with `complete` false
in the same order; concretely, after adding "A" then "B" the listing is
`[A, B]` with both incomplete, and after toggling "A" the filtered listing
is exactly `[B]`. -/
theorem c7_list_tasks_order :
    (∀ st : TaskStore, home none st = st.tasks)
    ∧ (∀ st : TaskStore,
        home (some "true") st = st.tasks.filter (fun t => !t.complete))
    ∧ home none ((add_task (some "B") (some "2023-01-02")
          ((add_task (some "A") (some "2023-01-01") ⟨[], 1⟩).1)).1)
        = [⟨1, "A", "2023-01-01", false, none⟩, ⟨2, "B", "2023-01-02", false, none⟩]
    ∧ home (some "true")
          ((complete_task 1 ((add_task (some "B") (some "2023-01-02")
            ((add_task (some "A") (some "2023-01-01") ⟨[], 1⟩).1)).1)).1)
        = [⟨2, "B", "2023-01-02", false, none⟩] := by
  have hfalse : (pyLower ((none : Option String).getD "false") == "true") = false := by
    decide
  have htrue : (pyLower ((some "true" : Option String).getD "false") == "true") = true := by
    decide
  refine ⟨fun st => by simp only [home, hfalse]; rfl,
    fun st => by simp only [home, htrue]; rfl,
    by decide, by decide⟩

/-- Deleting the head row (whose id occurs nowhere else) removes exactly
that row. -/
theorem removeTask_head (t : Task) (rest : List Task) (nid : Nat)
    (h : t.id ∉ rest.map (fun x => x.id)) :
    removeTask ⟨t :: rest, nid⟩ t.id = ⟨rest, nid⟩ := by
  have hfilter : rest.filter (fun x => x.id != t.id) = rest :=
    List.filter_eq_self.mpr
      (fun x hx => bne_iff_ne.mpr
        (fun he => h (he ▸ List.mem_map_of_mem (fun y => y.id) hx)))
  show TaskStore.mk ((t :: rest).filter fun x => x.id != t.id) nid = ⟨rest, nid⟩
  rw [List.filter_cons]
  simp [hfilter]

/-- Behaviour of the `delete_all_tasks` loop from any point: the rows left
behind are always a suffix of the pending snapshot (everything already
processed is deleted and committed), and when no remote delete attempt
fails, every row is removed and success is flashed. -/
theorem delete_all_go_spec (s3del : String → S3DelOutcome)
    (pending : List Task) :
    ∀ cur : TaskStore, cur.tasks = pending →
      (pending.map (fun t => t.id)).Nodup →
      ((∃ k, (delete_all_go s3del pending cur).1.tasks = List.drop k pending)
       ∧ ((∀ t ∈ pending, ∀ fn, t.file_name = some fn →
            s3del (s3Key t.id fn) = S3DelOutcome.ok) →
          delete_all_go s3del pending cur =
            (⟨[], cur.nextId⟩, [⟨"All tasks deleted successfully", "danger"⟩]))) := by
  induction pending with
  | nil =>
    intro cur hcur _
    refine ⟨⟨0, by simpa [delete_all_go] using hcur⟩, fun _ => ?_⟩
    obtain ⟨tasks, nid⟩ := cur
    have hc : tasks = [] := hcur
    subst hc
    rfl
  | cons t rest ih =>
    intro cur hcur hnodup
    obtain ⟨tasks, nid⟩ := cur
    have hc : tasks = t :: rest := hcur
    subst hc
    rw [List.map_cons, List.nodup_cons] at hnodup
    obtain ⟨hnotmem, hnd⟩ := hnodup
    have hrem : removeTask ⟨t :: rest, nid⟩ t.id = ⟨rest, nid⟩ :=
      removeTask_head t rest nid hnotmem
    have ihr := ih ⟨rest, nid⟩ rfl hnd
    cases hfile : t.file_name with
    | none =>
      have hgo : delete_all_go s3del (t :: rest) ⟨t :: rest, nid⟩
          = delete_all_go s3del rest ⟨rest, nid⟩ := by
        simp only [delete_all_go, hfile, hrem]
      constructor
      · obtain ⟨k, hk⟩ := ihr.1
        exact ⟨k + 1, by rw [hgo]; simpa using hk⟩
      · intro hall
        rw [hgo, ihr.2 (fun x hx fn hfn => hall x (by simp [hx]) fn hfn)]
    | some fn =>
      cases hout : s3del (s3Key t.id fn) with
      | ok =>
        have hgo : delete_all_go s3del (t :: rest) ⟨t :: rest, nid⟩
            = delete_all_go s3del rest ⟨rest, nid⟩ := by
          simp only [delete_all_go, hfile, hout, hrem]
        constructor
        · obtain ⟨k, hk⟩ := ihr.1
          exact ⟨k + 1, by rw [hgo]; simpa using hk⟩
        · intro hall
          rw [hgo, ihr.2 (fun x hx fn hfn => hall x (by simp [hx]) fn hfn)]
      | noCredentials =>
        refine ⟨⟨0, by simp [delete_all_go, hfile, hout]⟩, fun hall => ?_⟩
        exact absurd (hall t (by simp) fn hfile) (by rw [hout]; simp)
      | clientError m =>
        refine ⟨⟨0, by simp [delete_all_go, hfile, hout]⟩, fun hall => ?_⟩
        exact absurd (hall t (by simp) fn hfile) (by rw [hout]; simp)
      | raiseOther m =>
        refine ⟨⟨0, by simp [delete_all_go, hfile, hout]⟩, fun hall => ?_⟩
        exact absurd (hall t (by simp) fn hfile) (by rw [hout]; simp)

/-- C1, amended: `delete_all_tasks` is not atomic. Each row deletion is
committed inside the loop, so the visible state afterwards is always some
suffix of the starting task list — on a mid-loop storage failure the
already-processed prefix stays deleted and the remaining rows stay present;
only when no remote delete attempt fails are all rows removed (with the
success flash). -/
theorem c1_delete_all_not_atomic (s3del : String → S3DelOutcome)
    (st : TaskStore) (h : (st.tasks.map (fun t => t.id)).Nodup) :
    (∃ k, (delete_all_tasks s3del st).1.tasks = List.drop k st.tasks)
    ∧ ((∀ t ∈ st.tasks, ∀ fn, t.file_name = some fn →
          s3del (s3Key t.id fn) = S3DelOutcome.ok) →
        delete_all_tasks s3del st =
          (⟨[], st.nextId⟩, [⟨"All tasks deleted successfully", "danger"⟩])) :=
  delete_all_go_spec s3del st.tasks st rfl h

/-- C1, counterexample: starting from two tasks where the second carries a
file whose remote deletion fails (as it always does in the code: the
module-level `s3_client` is undefined, so the attempt raises and the outer
handler catches it), `delete_all_tasks` leaves exactly the second task —
neither every task record remains nor none does, refuting atomicity. -/
theorem c1_counterexample :
    (delete_all_tasks (fun _ => S3DelOutcome.raiseOther "NameError")
        ⟨[⟨1, "Test task 1", "2023-01-01", false, none⟩,
          ⟨2, "Test task 2", "2023-01-02", false, some "notes.txt"⟩], 3⟩).1.tasks
      = [⟨2, "Test task 2", "2023-01-02", false, some "notes.txt"⟩]
    ∧ (delete_all_tasks (fun _ => S3DelOutcome.raiseOther "NameError")
        ⟨[⟨1, "Test task 1", "2023-01-01", false, none⟩,
          ⟨2, "Test task 2", "2023-01-02", false, some "notes.txt"⟩], 3⟩).1.tasks
      ≠ [⟨1, "Test task 1", "2023-01-01", false, none⟩,
         ⟨2, "Test task 2", "2023-01-02", false, some "notes.txt"⟩]
    ∧ (delete_all_tasks (fun _ => S3DelOutcome.raiseOther "NameError")
        ⟨[⟨1, "Test task 1", "2023-01-01", false, none⟩,
          ⟨2, "Test task 2", "2023-01-02", false, some "notes.txt"⟩], 3⟩).1.tasks
      ≠ []
    ∧ (delete_all_tasks (fun _ => S3DelOutcome.raiseOther "NameError")
        ⟨[⟨1, "Test task 1", "2023-01-01", false, none⟩,
          ⟨2, "Test task 2", "2023-01-02", false, some "notes.txt"⟩], 3⟩).2
      = [⟨"Error deleting all tasks", "error"⟩] := by
  refine ⟨rfl, by decide, by decide, rfl⟩

/-- C1, witness for the amended theorem: on the same two-task store with a
fully successful remote store, the suffix decomposition holds and every row
is removed with the success flash. -/
theorem c1_delete_all_not_atomic_witness :
    (((⟨[⟨1, "Test task 1", "2023-01-01", false, none⟩,
         ⟨2, "Test task 2", "2023-01-02", false, some "notes.txt"⟩], 3⟩ :
        TaskStore).tasks.map (fun t => t.id)).Nodup)
    ∧ (∃ k, (delete_all_tasks (fun _ => S3DelOutcome.ok)
          ⟨[⟨1, "Test task 1", "2023-01-01", false, none⟩,
            ⟨2, "Test task 2", "2023-01-02", false, some "notes.txt"⟩], 3⟩).1.tasks
        = List.drop k
            (⟨[⟨1, "Test task 1", "2023-01-01", false, none⟩,
               ⟨2, "Test task 2", "2023-01-02", false, some "notes.txt"⟩], 3⟩ :
              TaskStore).tasks)
    ∧ delete_all_tasks (fun _ => S3DelOutcome.ok)
          ⟨[⟨1, "Test task 1", "2023-01-01", false, none⟩,
            ⟨2, "Test task 2", "2023-01-02", false, some "notes.txt"⟩], 3⟩
        = (⟨[], 3⟩, [⟨"All tasks deleted successfully", "danger"⟩]) :=
  ⟨by decide,
   (c1_delete_all_not_atomic (fun _ => S3DelOutcome.ok)
      ⟨[⟨1, "Test task 1", "2023-01-01", false, none⟩,
        ⟨2, "Test task 2", "2023-01-02", false, some "notes.txt"⟩], 3⟩
      (by decide)).1,
   (c1_delete_all_not_atomic (fun _ => S3DelOutcome.ok)
      ⟨[⟨1, "Test task 1", "2023-01-01", false, none⟩,
        ⟨2, "Test task 2", "2023-01-02", false, some "notes.txt"⟩], 3⟩
      (by decide)).2 (fun t ht fn hfn => rfl)⟩

end ToDoApp
